import Mathlib

/-!
Verification of the SLA evaluation engine of the `sla-app` repository.

The development shallowly embeds the Python sources:
  * `sla_calculator.py` — business-day calculator, Jira date parser,
    field-value extraction, result/summary data model;
  * `sla_checker.py`   — the three SLA checks (category predicate,
    done-date predicate, first-response predicate);
  * `config.py`        — the shipped SLA definitions.

Timestamps are modelled by `NaiveDateTime` (civil calendar date plus
time-of-day down to microseconds, timezone-naive, exactly like the naive
`datetime` values the program compares).  Day numbers are days since
1970-01-01 (a Thursday), computed with the standard civil-from-days
algorithm, so that the numpy `busday_count` weekday arithmetic can be
expressed by counting day numbers modulo 7.
-/

namespace SlaApp

/-- Timezone-naive civil datetime, mirroring the naive Python `datetime`
values the program works with after `parse_jira_date` drops any offset. -/
structure NaiveDateTime where
  year : Nat
  month : Nat
  day : Nat
  hour : Nat
  minute : Nat
  second : Nat
  micro : Nat
  deriving DecidableEq, Repr

/-- Strict lexicographic comparison of naive datetimes, mirroring Python
`datetime` comparison (`<`). -/
def dtLtB (a b : NaiveDateTime) : Bool :=
  Nat.blt a.year b.year ||
    (a.year == b.year && (Nat.blt a.month b.month ||
      (a.month == b.month && (Nat.blt a.day b.day ||
        (a.day == b.day && (Nat.blt a.hour b.hour ||
          (a.hour == b.hour && (Nat.blt a.minute b.minute ||
            (a.minute == b.minute && (Nat.blt a.second b.second ||
              (a.second == b.second && Nat.blt a.micro b.micro)))))))))))

/-- Non-strict comparison, `a ≤ b` iff `¬ (b < a)` (total order). -/
def dtLeB (a b : NaiveDateTime) : Bool :=
  !(dtLtB b a)

/-- `datetime.min` of Python (year 1, January 1, midnight); used by the
candidate sort as the key substituted for a missing `created` date. -/
def pyDatetimeMin : NaiveDateTime :=
  ⟨1, 1, 1, 0, 0, 0, 0⟩

/-- Day number (days since 1970-01-01) of a civil date, by the standard
days-from-civil algorithm.  All intermediate quantities are non-negative
for the years ≥ 1 produced by the date parser. -/
def civilToDays (y m d : Nat) : Int :=
  let yi : Int := (y : Int)
  let ys : Int := if m ≤ 2 then yi - 1 else yi
  let era : Int := (if 0 ≤ ys then ys else ys - 399) / 400
  let yoe : Int := ys - era * 400
  let mp : Int := ((m : Int) + 9) % 12
  let doy : Int := (153 * mp + 2) / 5 + (d : Int) - 1
  let doe : Int := yoe * 365 + yoe / 4 - yoe / 100 + doy
  era * 146097 + doe - 719468

/-- Day number of the calendar date of a datetime (time-of-day ignored). -/
def toDays (dt : NaiveDateTime) : Int :=
  civilToDays dt.year dt.month dt.day

/-- A day number is a business day iff it is Monday–Friday.  Day 0 is
1970-01-01, a Thursday, so Saturday/Sunday are residues 2 and 3 mod 7. -/
def isBusinessDay (n : Int) : Bool :=
  !(n % 7 == 2 || n % 7 == 3)

/-- `np.busday_count(s, e)`: number of business days `d` with
`s ≤ d < e` (begin date included, end date excluded, default Mon–Fri
week mask).  For `e ≤ s` the range is empty, giving `0`. -/
def busday_count (s e : Int) : Int :=
  (((List.range (e - s).toNat).countP (fun i => isBusinessDay (s + (i : Int)))) : Int)

/-- `get_business_days` of `sla_calculator.py`: returns `0` when
`end_date < start_date` (full datetime comparison), otherwise
`np.busday_count` over the two calendar dates. -/
def get_business_days (start_date end_date : NaiveDateTime) : Int :=
  if dtLtB end_date start_date then 0
  else busday_count (toDays start_date) (toDays end_date)

/-- `get_business_days_elapsed` of `sla_calculator.py`: business days from
`start_date` until now; the current instant is an explicit parameter of
the embedding. -/
def get_business_days_elapsed (start_date now : NaiveDateTime) : Int :=
  get_business_days start_date now

/-- Time-of-day of a datetime in microseconds. -/
def todMicro (dt : NaiveDateTime) : Int :=
  (((dt.hour * 60 + dt.minute) * 60 + dt.second) * 1000000 + dt.micro : Nat)

/-- `format_elapsed_time` of `sla_calculator.py`: renders `end - start` as
`"{days}d {hours}h {minutes}m"`, floored to whole minutes, and
`"0d 0h 0m"` when the delta is negative. -/
def format_elapsed_time (s e : NaiveDateTime) : String :=
  let deltaMicro : Int := (toDays e - toDays s) * 86400000000 + (todMicro e - todMicro s)
  if deltaMicro < 0 then "0d 0h 0m"
  else
    let totalMinutes : Nat := (deltaMicro / 60000000).toNat
    let days : Nat := totalMinutes / (24 * 60)
    let hours : Nat := (totalMinutes % (24 * 60)) / 60
    let minutes : Nat := totalMinutes % 60
    s!"{days}d {hours}h {minutes}m"

/-! ## Raw Jira field values and `extract_field_value` -/

/-- Raw Jira field value as it arrives from the tracker JSON: a plain
string, a single-select object (string-valued entries), a multi-select
list, or JSON null / Python `None`. -/
inductive FieldVal where
  | s (v : String)
  | obj (entries : List (String × String))
  | list (xs : List FieldVal)
  | null
  deriving Repr

/-- Stand-in for Python `str(field)`, the generic fallback rendering of
`extract_field_value`.  No claim depends on the exact text. -/
def strRender : FieldVal → String
  | .null => "None"
  | .s v => v
  | .obj es => "dict(" ++ String.intercalate ", " (es.map (fun kv => kv.1 ++ ": " ++ kv.2)) ++ ")"
  | .list _ => "list(...)"

/-- `extract_field_value` of `sla_calculator.py`: `None` gives the
default, a string gives itself, a mapping gives the first present of
`value`/`displayValue`/`name`/`key`, a non-empty list recurses on its
first element, anything else is rendered generically. -/
def extract_field_value (field : FieldVal) (d : String) : String :=
  match field with
  | .null => d
  | .s v => v
  | .obj es =>
    match es.lookup "value" with
    | some v => v
    | none =>
      match es.lookup "displayValue" with
      | some v => v
      | none =>
        match es.lookup "name" with
        | some v => v
        | none =>
          match es.lookup "key" with
          | some v => v
          | none => strRender (.obj es)
  | .list [] => strRender (.list [])
  | .list (x :: _) => extract_field_value x d

/-- Python `str.lower()`, character-wise (ASCII case folding, matching
the identifiers and category values the program compares). -/
def pyLower (s : String) : String :=
  ⟨s.data.map Char.toLower⟩

/-- Python `str.startswith(p)`. -/
def pyStartsWith (s p : String) : Bool :=
  p.data.isPrefixOf s.data

/-- Python `needle in hay` substring test. -/
def containsSub (hay needle : String) : Bool :=
  (List.range (hay.data.length + 1)).any
    (fun i => needle.data.isPrefixOf (hay.data.drop i))

/-! ## The Jira date parser (`parse_jira_date`)

`datetime.strptime` is embedded for exactly the six format strings the
source tries, character by character: numeric fields are greedy runs of
digits up to the field width, literals must match exactly, field values
are range-checked (month 1–12, day valid for the month, hour < 24,
minute/second < 60, offset hours < 24 and minutes < 60), and the whole
string must be consumed.  `%z` accepts `Z` or `±HHMM` / `±HH:MM`. -/

/-- Greedy run of up to `n` leading digits: `(digits, rest)`. -/
def takeDigits : Nat → List Char → List Char × List Char
  | _, [] => ([], [])
  | 0, cs => ([], cs)
  | n + 1, c :: cs =>
    if c.isDigit then
      let p := takeDigits n cs
      (c :: p.1, p.2)
    else ([], c :: cs)

/-- Numeric value of a digit run. -/
def digitsToNat (ds : List Char) : Nat :=
  ds.foldl (fun a c => a * 10 + (c.toNat - 48)) 0

/-- Numeric field of one to `maxLen` digits (strptime semantics). -/
def parseNumUpTo (maxLen : Nat) (cs : List Char) : Option (Nat × List Char) :=
  let p := takeDigits maxLen cs
  if p.1.isEmpty then none else some (digitsToNat p.1, p.2)

/-- Numeric field of exactly `len` digits (used by `%z` offsets). -/
def parseNumExact (len : Nat) (cs : List Char) : Option (Nat × List Char) :=
  let p := takeDigits len cs
  if p.1.length == len then some (digitsToNat p.1, p.2) else none

/-- A single mandatory literal character. -/
def lit (c : Char) : List Char → Option (List Char)
  | x :: rest => if x == c then some rest else none
  | [] => none

/-- Gregorian leap year. -/
def isLeap (y : Nat) : Bool :=
  y % 4 == 0 && (y % 100 != 0 || y % 400 == 0)

/-- Length of a month, as validated by `strptime`. -/
def daysInMonth (y m : Nat) : Nat :=
  if m == 2 then (if isLeap y then 29 else 28)
  else if m == 4 || m == 6 || m == 9 || m == 11 then 30
  else 31

/-- `%Y-%m-%d` with range validation. -/
def parseYMD (cs : List Char) : Option ((Nat × Nat × Nat) × List Char) := do
  let (y, cs) ← parseNumUpTo 4 cs
  let cs ← lit '-' cs
  let (m, cs) ← parseNumUpTo 2 cs
  let cs ← lit '-' cs
  let (d, cs) ← parseNumUpTo 2 cs
  if 1 ≤ y && 1 ≤ m && m ≤ 12 && 1 ≤ d && d ≤ daysInMonth y m then
    some ((y, m, d), cs)
  else none

/-- `%H:%M:%S` with range validation. -/
def parseHMS (cs : List Char) : Option ((Nat × Nat × Nat) × List Char) := do
  let (h, cs) ← parseNumUpTo 2 cs
  let cs ← lit ':' cs
  let (mi, cs) ← parseNumUpTo 2 cs
  let cs ← lit ':' cs
  let (sec, cs) ← parseNumUpTo 2 cs
  if h ≤ 23 && mi ≤ 59 && sec ≤ 59 then some ((h, mi, sec), cs) else none

/-- `%f`: one to six digits of fractional seconds, scaled to microseconds. -/
def parseFrac (cs : List Char) : Option (Nat × List Char) :=
  let p := takeDigits 6 cs
  if p.1.isEmpty then none
  else some (digitsToNat p.1 * 10 ^ (6 - p.1.length), p.2)

/-- `%z`: `Z` (UTC) or a signed `±HHMM` / `±HH:MM` offset, in minutes. -/
def parseTz (cs : List Char) : Option (Int × List Char) :=
  match cs with
  | [] => none
  | 'Z' :: rest => some (0, rest)
  | sign :: rest =>
    if sign == '+' || sign == '-' then do
      let (hh, r1) ← parseNumExact 2 rest
      let (mm, r2) ←
        match r1 with
        | ':' :: t => parseNumExact 2 t
        | _ => parseNumExact 2 r1
      if hh ≤ 23 && mm ≤ 59 then
        let off : Int := ((hh * 60 + mm : Nat) : Int)
        some (if sign == '-' then -off else off, r2)
      else none
    else none

/-- `"%Y-%m-%dT%H:%M:%S.%f%z"`; timezone-aware result. -/
def strptimeFmt1 (cs : List Char) : Option (NaiveDateTime × Option Int) := do
  let (ymd, cs) ← parseYMD cs
  let cs ← lit 'T' cs
  let (hms, cs) ← parseHMS cs
  let cs ← lit '.' cs
  let (us, cs) ← parseFrac cs
  let (off, cs) ← parseTz cs
  if cs.isEmpty then
    some (⟨ymd.1, ymd.2.1, ymd.2.2, hms.1, hms.2.1, hms.2.2, us⟩, some off)
  else none

/-- `"%Y-%m-%dT%H:%M:%S%z"`; timezone-aware result. -/
def strptimeFmt2 (cs : List Char) : Option (NaiveDateTime × Option Int) := do
  let (ymd, cs) ← parseYMD cs
  let cs ← lit 'T' cs
  let (hms, cs) ← parseHMS cs
  let (off, cs) ← parseTz cs
  if cs.isEmpty then
    some (⟨ymd.1, ymd.2.1, ymd.2.2, hms.1, hms.2.1, hms.2.2, 0⟩, some off)
  else none

/-- `"%Y-%m-%dT%H:%M:%S.%fZ"`; literal `Z`, timezone-naive result. -/
def strptimeFmt3 (cs : List Char) : Option (NaiveDateTime × Option Int) := do
  let (ymd, cs) ← parseYMD cs
  let cs ← lit 'T' cs
  let (hms, cs) ← parseHMS cs
  let cs ← lit '.' cs
  let (us, cs) ← parseFrac cs
  let cs ← lit 'Z' cs
  if cs.isEmpty then
    some (⟨ymd.1, ymd.2.1, ymd.2.2, hms.1, hms.2.1, hms.2.2, us⟩, none)
  else none

/-- `"%Y-%m-%dT%H:%M:%SZ"`; literal `Z`, timezone-naive result. -/
def strptimeFmt4 (cs : List Char) : Option (NaiveDateTime × Option Int) := do
  let (ymd, cs) ← parseYMD cs
  let cs ← lit 'T' cs
  let (hms, cs) ← parseHMS cs
  let cs ← lit 'Z' cs
  if cs.isEmpty then
    some (⟨ymd.1, ymd.2.1, ymd.2.2, hms.1, hms.2.1, hms.2.2, 0⟩, none)
  else none

/-- `"%Y-%m-%d %H:%M:%S"`; timezone-naive result. -/
def strptimeFmt5 (cs : List Char) : Option (NaiveDateTime × Option Int) := do
  let (ymd, cs) ← parseYMD cs
  let cs ← lit ' ' cs
  let (hms, cs) ← parseHMS cs
  if cs.isEmpty then
    some (⟨ymd.1, ymd.2.1, ymd.2.2, hms.1, hms.2.1, hms.2.2, 0⟩, none)
  else none

/-- `"%Y-%m-%d"`; midnight, timezone-naive result. -/
def strptimeFmt6 (cs : List Char) : Option (NaiveDateTime × Option Int) := do
  let (ymd, cs) ← parseYMD cs
  if cs.isEmpty then
    some (⟨ymd.1, ymd.2.1, ymd.2.2, 0, 0, 0, 0⟩, none)
  else none

/-- The fixed priority order of formats in `parse_jira_date`: the first
successful parse wins. -/
def tryFormats (v : String) : Option (NaiveDateTime × Option Int) :=
  (strptimeFmt1 v.data).orElse fun _ =>
    (strptimeFmt2 v.data).orElse fun _ =>
      (strptimeFmt3 v.data).orElse fun _ =>
        (strptimeFmt4 v.data).orElse fun _ =>
          (strptimeFmt5 v.data).orElse fun _ =>
            strptimeFmt6 v.data

/-- `parse_jira_date` of `sla_calculator.py`.  Falsy input (`None`, empty
string, empty collections) and non-string input give `None`; a string is
tried against the six formats in order, and any timezone-aware result is
made naive by dropping the offset (the civil clock reading is kept
unchanged — no normalization to UTC). -/
def parse_jira_date : Option FieldVal → Option NaiveDateTime
  | some (.s v) => if v == "" then none else (tryFormats v).map (fun r => r.1)
  | _ => none

/-! ## Configuration (`config.py`) -/

/-- `"Health plan (migrated)"` field id on ACS tickets. -/
def HEALTH_PLAN_FIELD_ID : String := "customfield_10151"

/-- `"category"` field id on LPM tickets. -/
def CATEGORY_FIELD_ID : String := "customfield_10356"

/-- `"source of identification"` field id on ACS tickets. -/
def SOURCE_OF_ID_FIELD_ID : String := "customfield_10358"

/-- One entry of `SLA_DEFINITIONS`.  Keys that are present only in some
entries of the Python dict are `Option`-valued; `none` models an absent
key, so `dict.get(k, "")` becomes `(… .getD "")`. -/
structure SLAConfig where
  name : String
  source_project : String
  target_project : String
  health_plan_field : String
  health_plan_value : String
  target_category : Option String
  target_status : Option String
  target_days : Int
  config_done_date_field : Option String
  deriving Repr

/-- `SLA_DEFINITIONS["identification_resolution_config"]`. -/
def identification_resolution_config : SLAConfig :=
  { name := "Identification of Resolution for Configuration Issues"
    source_project := "ACS"
    target_project := "LPM"
    health_plan_field := "Health plan (migrated)"
    health_plan_value := "BCBSLA"
    target_category := some "break fix"
    target_status := none
    target_days := 30
    config_done_date_field := none }

/-- `SLA_DEFINITIONS["resolution_config"]`.  Note: the shipped dict has a
`target_status` key but **no** `config_done_date_field` key. -/
def resolution_config : SLAConfig :=
  { name := "Resolution of Configuration Issues"
    source_project := "ACS"
    target_project := "LPM"
    health_plan_field := "Health plan (migrated)"
    health_plan_value := "BCBSLA"
    target_category := none
    target_status := some "ready to build"
    target_days := 60
    config_done_date_field := none }

/-! ## Ticket snapshots and the capability interface

Raw tracker data is modelled at the shape the engine actually reads:
`created` values are raw field values fed to `parse_jira_date`, the
per-link secondary fetch is a function `String → Option LinkedDetail`
(`none` models the swallowed fetch exception), and comments expose the
author account type, the `jsdPublic` flag, the presence of a
`visibility` restriction marker, and the raw `created` value. -/

structure IssueLink where
  outwardIssue : Option String
  inwardIssue : Option String
  deriving Repr

structure Ticket where
  key : String
  created : Option FieldVal
  statusName : String
  issuelinks : List IssueLink
  fields : List (String × FieldVal)

structure LinkedDetail where
  fields : List (String × FieldVal)

structure Comment where
  accountType : String
  jsdPublic : Option Bool
  visibility : Bool
  created : Option FieldVal

/-! ## Result and summary data model (`sla_calculator.py`) -/

structure SLAResult where
  source_ticket : String
  target_ticket : Option String
  created_date : NaiveDateTime
  resolved_date : Option NaiveDateTime
  days_elapsed : Int
  target_days : Int
  status : String
  source_of_identification : String
  category_migrated : String
  lpm_category : String
  elapsed_time_str : Option String
  deriving DecidableEq, Repr

def SLAResult.is_met (r : SLAResult) : Bool := r.status == "met"

def SLAResult.is_breached (r : SLAResult) : Bool := r.status == "breached"

def SLAResult.is_in_progress (r : SLAResult) : Bool := r.status == "in_progress"

structure SLASummary where
  sla_name : String
  target_days : Int
  results : List SLAResult
  deriving DecidableEq, Repr

def SLASummary.total_count (s : SLASummary) : Nat := s.results.length

def SLASummary.met_count (s : SLASummary) : Nat := s.results.countP SLAResult.is_met

def SLASummary.breached_count (s : SLASummary) : Nat := s.results.countP SLAResult.is_breached

def SLASummary.in_progress_count (s : SLASummary) : Nat :=
  s.results.countP SLAResult.is_in_progress

/-- `SLASummary.compliance_rate`: percentage of resolved tickets that met
the SLA, `100.0` when no ticket is resolved.  Real (float) arithmetic is
modelled exactly in `ℚ`. -/
def SLASummary.compliance_rate (s : SLASummary) : ℚ :=
  let resolved : Nat := s.met_count + s.breached_count
  if resolved == 0 then 100
  else ((s.met_count : ℚ) / (resolved : ℚ)) * 100

/-! ## Candidate selection -/

/-- A matching linked ticket: its key, the timestamp used for selection
(the linked ticket's `created` date for the category predicate, the
config-done date for the done-date predicate), and its category text. -/
structure Candidate where
  key : String
  created : Option NaiveDateTime
  cat : String
  deriving DecidableEq, Repr

/-- Sort key of a candidate: `c[1] or datetime.min`. -/
def candKey (c : Candidate) : NaiveDateTime := c.created.getD pyDatetimeMin

/-- Insert into a descending-sorted list, after strictly greater keys and
before smaller-or-equal keys, so that elements inserted later (earlier in
the input) precede equal keys: stability of Python `list.sort`. -/
def insertDesc (c : Candidate) : List Candidate → List Candidate
  | [] => [c]
  | b :: bs => if dtLeB (candKey b) (candKey c) then c :: b :: bs else b :: insertDesc c bs

/-- `candidates.sort(key=lambda c: c[1] or datetime.min, reverse=True)`:
stable descending sort by the candidate timestamp. -/
def sortDescByCreated (cs : List Candidate) : List Candidate :=
  cs.foldr insertDesc []

/-- Python truthiness of the optional target key: `None` and `""` are
falsy. -/
def optStrTruthy : Option String → Bool
  | some v => !(v == "")
  | none => false

/-- `link.get("outwardIssue") or link.get("inwardIssue")`, projected to
the linked issue key. -/
def linkedKey (link : IssueLink) : Option String :=
  match link.outwardIssue with
  | some v => some v
  | none => link.inwardIssue

/-- The category-string computation of `_evaluate_ticket`: the configured
category field when present, then a scan over all fields whose (lowered)
name contains `"category"`, filling in only while the value is empty. -/
def categoryValueOf (category_field : String) (fields : List (String × FieldVal)) : String :=
  let base :=
    if category_field != "" && (fields.lookup category_field).isSome then
      extract_field_value ((fields.lookup category_field).getD .null) "Unknown"
    else ""
  fields.foldl
    (fun cv kv =>
      if containsSub (pyLower kv.1) "category" then
        (if cv == "" then extract_field_value kv.2 "Unknown" else cv)
      else cv)
    base

/-- Candidate collection of `_evaluate_ticket`: for every link, take the
outward-or-inward issue, keep keys with the target-project prefix, fetch
the detail (a failed fetch skips the candidate), and keep it when its
category matches the target category case-insensitively.  The candidate
timestamp is the parsed `created` date of the linked ticket. -/
def collectCandidates (cfg : SLAConfig) (category_field : String)
    (fetch : String → Option LinkedDetail) : List IssueLink → List Candidate
  | [] => []
  | link :: rest =>
    match linkedKey link with
    | none => collectCandidates cfg category_field fetch rest
    | some lk =>
      if !(pyStartsWith lk cfg.target_project) then
        collectCandidates cfg category_field fetch rest
      else
        match fetch lk with
        | none => collectCandidates cfg category_field fetch rest
        | some detail =>
          let category_value := categoryValueOf category_field detail.fields
          if pyLower category_value == pyLower (cfg.target_category.getD "") then
            { key := lk, created := parse_jira_date (detail.fields.lookup "created"),
              cat := category_value } :: collectCandidates cfg category_field fetch rest
          else collectCandidates cfg category_field fetch rest

/-- Candidate collection of `_evaluate_ticket_resolution`: same link
scan, but a link qualifies iff the field named by
`sla_config.get("config_done_date_field", "")` parses to a date; that
date is the candidate timestamp. -/
def collectResolutionCandidates (cfg : SLAConfig) (category_field : String)
    (fetch : String → Option LinkedDetail) : List IssueLink → List Candidate
  | [] => []
  | link :: rest =>
    match linkedKey link with
    | none => collectResolutionCandidates cfg category_field fetch rest
    | some lk =>
      if !(pyStartsWith lk cfg.target_project) then
        collectResolutionCandidates cfg category_field fetch rest
      else
        match fetch lk with
        | none => collectResolutionCandidates cfg category_field fetch rest
        | some detail =>
          match parse_jira_date (detail.fields.lookup (cfg.config_done_date_field.getD "")) with
          | some cdd =>
            { key := lk, created := some cdd,
              cat :=
                if category_field != "" && (detail.fields.lookup category_field).isSome then
                  extract_field_value ((detail.fields.lookup category_field).getD .null) ""
                else "" } :: collectResolutionCandidates cfg category_field fetch rest
          | none => collectResolutionCandidates cfg category_field fetch rest

/-! ## The three evaluations -/

/-- `SLAChecker._evaluate_ticket` (category predicate).  The current
instant `now` is explicit; a missing/unparseable `created` falls back to
`now`. -/
def evaluate_ticket (t : Ticket) (cfg : SLAConfig) (category_field : String)
    (fetch : String → Option LinkedDetail) (now : NaiveDateTime) : SLAResult :=
  let created_date := (parse_jira_date t.created).getD now
  let candidates := collectCandidates cfg category_field fetch t.issuelinks
  let sel := (sortDescByCreated candidates).head?
  let target_ticket := sel.map Candidate.key
  let resolved_date := sel.bind Candidate.created
  let lpm_category := (sel.map Candidate.cat).getD ""
  let source_of_id := extract_field_value ((t.fields.lookup SOURCE_OF_ID_FIELD_ID).getD .null) ""
  let category_migrated := extract_field_value ((t.fields.lookup CATEGORY_FIELD_ID).getD .null) ""
  let days_elapsed :=
    match resolved_date with
    | some r => get_business_days created_date r
    | none => get_business_days_elapsed created_date now
  let status :=
    if optStrTruthy target_ticket && resolved_date.isSome then
      if days_elapsed ≤ cfg.target_days then "met" else "breached"
    else
      if cfg.target_days < days_elapsed then "breached" else "in_progress"
  { source_ticket := t.key, target_ticket, created_date, resolved_date, days_elapsed,
    target_days := cfg.target_days, status, source_of_identification := source_of_id,
    category_migrated, lpm_category, elapsed_time_str := none }

/-- `SLAChecker._evaluate_ticket_resolution` (done-date predicate). -/
def evaluate_ticket_resolution (t : Ticket) (cfg : SLAConfig) (category_field : String)
    (fetch : String → Option LinkedDetail) (now : NaiveDateTime) : SLAResult :=
  let created_date := (parse_jira_date t.created).getD now
  let candidates := collectResolutionCandidates cfg category_field fetch t.issuelinks
  let sel := (sortDescByCreated candidates).head?
  let target_ticket := sel.map Candidate.key
  let resolved_date := sel.bind Candidate.created
  let lpm_category := (sel.map Candidate.cat).getD ""
  let source_of_id := extract_field_value ((t.fields.lookup SOURCE_OF_ID_FIELD_ID).getD .null) ""
  let category_migrated := extract_field_value ((t.fields.lookup CATEGORY_FIELD_ID).getD .null) ""
  let days_elapsed :=
    match resolved_date with
    | some r => get_business_days created_date r
    | none => get_business_days_elapsed created_date now
  let status :=
    if optStrTruthy target_ticket && resolved_date.isSome then
      if days_elapsed ≤ cfg.target_days then "met" else "breached"
    else
      if cfg.target_days < days_elapsed then "breached" else "in_progress"
  { source_ticket := t.key, target_ticket, created_date, resolved_date, days_elapsed,
    target_days := cfg.target_days, status, source_of_identification := source_of_id,
    category_migrated, lpm_category, elapsed_time_str := none }

/-- The `if comment_date and (first is None or comment_date < first)`
update of the running earliest response date. -/
def frConsider (acc : Option NaiveDateTime) (c : Comment) : Option NaiveDateTime :=
  match parse_jira_date c.created with
  | some d =>
    match acc with
    | none => some d
    | some f => if dtLtB d f then some d else some f
  | none => acc

/-- One comment of the first-response scan: non-`atlassian` authors are
skipped; an explicit `jsdPublic` flag decides publicness, otherwise a
present visibility restriction skips the comment. -/
def frStep (acc : Option NaiveDateTime) (c : Comment) : Option NaiveDateTime :=
  if !(c.accountType == "atlassian") then acc
  else
    match c.jsdPublic with
    | some b => if !b then acc else frConsider acc c
    | none => if c.visibility then acc else frConsider acc c

/-- The first-response scan over all comments of a ticket. -/
def firstResponseDate (comments : List Comment) : Option NaiveDateTime :=
  comments.foldl frStep none

/-- The per-ticket body of `SLAChecker.check_first_response`.  The
shipped `SLA_DEFINITIONS` has no `"first_response"` entry, so the
threshold is a parameter (`target_days`); a comment-fetch failure yields
the empty comment list. -/
def evaluate_first_response (t : Ticket) (getComments : String → Option (List Comment))
    (now : NaiveDateTime) (target_days : Int) : SLAResult :=
  let created_date := (parse_jira_date t.created).getD now
  let comments := (getComments t.key).getD []
  let frd := firstResponseDate comments
  let source_of_id := extract_field_value ((t.fields.lookup SOURCE_OF_ID_FIELD_ID).getD .null) ""
  let category_migrated := extract_field_value ((t.fields.lookup CATEGORY_FIELD_ID).getD .null) ""
  let days_elapsed :=
    match frd with
    | some d => get_business_days created_date d
    | none => get_business_days_elapsed created_date now
  let elapsed :=
    match frd with
    | some d => format_elapsed_time created_date d
    | none => format_elapsed_time created_date now
  let status :=
    match frd with
    | some _ => if days_elapsed ≤ target_days then "met" else "breached"
    | none => if target_days < days_elapsed then "breached" else "in_progress"
  { source_ticket := t.key, target_ticket := none, created_date, resolved_date := frd,
    days_elapsed, target_days, status, source_of_identification := source_of_id,
    category_migrated, lpm_category := "", elapsed_time_str := some elapsed }

/-! ## The three checks (summary construction) -/

/-- The closed-source-status set excluded when no target ticket was
found. -/
def excluded_statuses : List String := ["closed", "resolved", "canceled"]

/-- The result loop of `check_identification_resolution_config`: a result
with a falsy target ticket whose source status (lowered) is in the
excluded set is skipped; everything else is appended in order. -/
def runIdentificationLoop (category_field : String) (fetch : String → Option LinkedDetail)
    (now : NaiveDateTime) : List Ticket → List SLAResult
  | [] => []
  | t :: ts =>
    let r := evaluate_ticket t identification_resolution_config category_field fetch now
    if !(optStrTruthy r.target_ticket) && excluded_statuses.contains (pyLower t.statusName) then
      runIdentificationLoop category_field fetch now ts
    else r :: runIdentificationLoop category_field fetch now ts

/-- `SLAChecker.check_identification_resolution_config`, from the list of
source tickets the search returned. -/
def check_identification_resolution_config (tickets : List Ticket) (category_field : String)
    (fetch : String → Option LinkedDetail) (now : NaiveDateTime) : SLASummary :=
  { sla_name := identification_resolution_config.name
    target_days := identification_resolution_config.target_days
    results := runIdentificationLoop category_field fetch now tickets }

/-- The result loop of `check_resolution_config`; same exclusion rule. -/
def runResolutionLoop (category_field : String) (fetch : String → Option LinkedDetail)
    (now : NaiveDateTime) : List Ticket → List SLAResult
  | [] => []
  | t :: ts =>
    let r := evaluate_ticket_resolution t resolution_config category_field fetch now
    if !(optStrTruthy r.target_ticket) && excluded_statuses.contains (pyLower t.statusName) then
      runResolutionLoop category_field fetch now ts
    else r :: runResolutionLoop category_field fetch now ts

/-- `SLAChecker.check_resolution_config`. -/
def check_resolution_config (tickets : List Ticket) (category_field : String)
    (fetch : String → Option LinkedDetail) (now : NaiveDateTime) : SLASummary :=
  { sla_name := resolution_config.name
    target_days := resolution_config.target_days
    results := runResolutionLoop category_field fetch now tickets }

/-- `SLAChecker.check_first_response`: every source ticket yields a
result; there is no exclusion filter.  The summary name and threshold
come from the (absent) `first_response` definition, so the threshold is a
parameter. -/
def check_first_response (tickets : List Ticket) (getComments : String → Option (List Comment))
    (now : NaiveDateTime) (target_days : Int) : SLASummary :=
  { sla_name := "Time to First Response"
    target_days := target_days
    results := tickets.map (fun t => evaluate_first_response t getComments now target_days) }

/-! ## Specification-side definitions

These definitions follow the wording of the specification (not the
source); the claim theorems compare them with the embedded source
functions. -/

/-- The status classification as the specification words it: with a
resolution present, `met` iff elapsed is within the threshold; without
one, `breached` once elapsed exceeds the threshold, otherwise
`in_progress`. -/
def specStatusOf (resolvedPresent : Bool) (elapsed target : Int) : String :=
  if resolvedPresent then
    if elapsed ≤ target then "met" else "breached"
  else
    if target < elapsed then "breached" else "in_progress"

/-- Selection as the specification words it: the candidate with the
latest timestamp, ties broken deterministically by stable input order
(the earliest-listed candidate among those attaining the maximum). -/
def firstMaxByCreated : List Candidate → Option Candidate
  | [] => none
  | c :: cs =>
    match firstMaxByCreated cs with
    | none => some c
    | some m => if dtLeB (candKey m) (candKey c) then some c else some m

/-- The comment filter as the specification words it: authored by an
internal (`atlassian`) account, and public — explicit `jsdPublic` flag
when present, otherwise the absence of a visibility-restriction
marker. -/
def specPublicInternal (c : Comment) : Bool :=
  c.accountType == "atlassian" &&
    (match c.jsdPublic with
     | some b => b
     | none => !c.visibility)

/-- Fold step selecting the earliest of a list of timestamps. -/
def specMinStep (acc : Option NaiveDateTime) (d : NaiveDateTime) : Option NaiveDateTime :=
  match acc with
  | none => some d
  | some f => if dtLtB d f then some d else some f

/-- Earliest timestamp of a list (`none` when empty). -/
def specEarliest (ds : List NaiveDateTime) : Option NaiveDateTime :=
  ds.foldl specMinStep none

/-- A datetime truncated to its calendar date (midnight). -/
def truncateDT (dt : NaiveDateTime) : NaiveDateTime :=
  ⟨dt.year, dt.month, dt.day, 0, 0, 0, 0⟩

/-- Business-day count under the convention the source implements
(amended claim wording): the business days `d` with
`startDay ≤ d < endDay` — start date included, end date excluded — and
`0` when `end < start`. -/
def business_days_incl_excl (s e : NaiveDateTime) : Int :=
  if dtLtB e s then 0
  else ((((List.range (toDays e - toDays s).toNat).map
      (fun i => toDays s + (i : Int))).filter isBusinessDay).length : Nat)

/-- Business-day count under the convention the original claim words:
start date excluded, end date included, `0` when `end < start`. -/
def business_days_excl_incl (s e : NaiveDateTime) : Int :=
  if dtLtB e s then 0
  else ((((List.range (toDays e - toDays s).toNat).map
      (fun i => toDays s + 1 + (i : Int))).filter isBusinessDay).length : Nat)

/-! ## Selection lemmas -/

theorem head_insertDesc (c : Candidate) (l : List Candidate) :
    (insertDesc c l).head? = some
      (match l.head? with
       | none => c
       | some h => if dtLeB (candKey h) (candKey c) then c else h) := by
  cases l with
  | nil => rfl
  | cons b bs =>
    by_cases hc : dtLeB (candKey b) (candKey c) = true <;>
      simp [insertDesc, hc]

theorem sortDesc_head (cs : List Candidate) :
    (sortDescByCreated cs).head? = firstMaxByCreated cs := by
  induction cs with
  | nil => rfl
  | cons c cs ih =>
    show (insertDesc c (sortDescByCreated cs)).head? = _
    rw [head_insertDesc, ih]
    cases h : firstMaxByCreated cs with
    | none => simp [firstMaxByCreated, h]
    | some m =>
      simp only [firstMaxByCreated, h]
      split <;> rfl

theorem firstMax_mem {cs : List Candidate} {c : Candidate}
    (h : firstMaxByCreated cs = some c) : c ∈ cs := by
  induction cs with
  | nil => simp [firstMaxByCreated] at h
  | cons a l ih =>
    cases hm : firstMaxByCreated l with
    | none =>
      simp only [firstMaxByCreated, hm, Option.some.injEq] at h
      subst h
      exact List.mem_cons_self a l
    | some m =>
      by_cases hle : dtLeB (candKey m) (candKey a) = true
      · simp only [firstMaxByCreated, hm, if_pos hle, Option.some.injEq] at h
        subst h
        exact List.mem_cons_self a l
      · simp only [firstMaxByCreated, hm, if_neg hle, Option.some.injEq] at h
        subst h
        exact List.mem_cons_of_mem a (ih hm)

/-! ## Candidate-collection lemmas -/

theorem collectCandidates_key_prefix (cfg : SLAConfig) (cf : String)
    (fetch : String → Option LinkedDetail) :
    ∀ links, ∀ c ∈ collectCandidates cfg cf fetch links,
      pyStartsWith c.key cfg.target_project = true := by
  intro links
  induction links with
  | nil => intro c hc; simp [collectCandidates] at hc
  | cons link rest ih =>
    intro c hc
    cases hlk : linkedKey link with
    | none =>
      simp only [collectCandidates, hlk] at hc
      exact ih c hc
    | some lk =>
      simp only [collectCandidates, hlk] at hc
      by_cases hsw : pyStartsWith lk cfg.target_project = true
      · simp only [hsw, Bool.not_true, Bool.false_eq_true, if_false] at hc
        cases hf : fetch lk with
        | none => simp only [hf] at hc; exact ih c hc
        | some detail =>
          simp only [hf] at hc
          split at hc
          · rcases List.mem_cons.mp hc with hceq | hctail
            · subst hceq; exact hsw
            · exact ih c hctail
          · exact ih c hc
      · rw [Bool.not_eq_true] at hsw
        simp only [hsw, Bool.not_false, if_true] at hc
        exact ih c hc

theorem collectResolutionCandidates_facts (cfg : SLAConfig) (cf : String)
    (fetch : String → Option LinkedDetail) :
    ∀ links, ∀ c ∈ collectResolutionCandidates cfg cf fetch links,
      pyStartsWith c.key cfg.target_project = true ∧ c.created.isSome = true := by
  intro links
  induction links with
  | nil => intro c hc; simp [collectResolutionCandidates] at hc
  | cons link rest ih =>
    intro c hc
    cases hlk : linkedKey link with
    | none =>
      simp only [collectResolutionCandidates, hlk] at hc
      exact ih c hc
    | some lk =>
      simp only [collectResolutionCandidates, hlk] at hc
      by_cases hsw : pyStartsWith lk cfg.target_project = true
      · simp only [hsw, Bool.not_true, Bool.false_eq_true, if_false] at hc
        cases hf : fetch lk with
        | none => simp only [hf] at hc; exact ih c hc
        | some detail =>
          simp only [hf] at hc
          split at hc
          · rcases List.mem_cons.mp hc with hceq | hctail
            · subst hceq; exact ⟨hsw, rfl⟩
            · exact ih c hctail
          · exact ih c hc
      · rw [Bool.not_eq_true] at hsw
        simp only [hsw, Bool.not_false, if_true] at hc
        exact ih c hc

/-- A key with the `"LPM"` prefix is not the empty string. -/
theorem startsWith_LPM_ne_empty (s : String) (h : pyStartsWith s "LPM" = true) :
    (s == "") = false := by
  cases hs : s == ""
  · rfl
  · exfalso
    have hse : s = "" := by simpa using hs
    subst hse
    exact absurd h (by decide)

/-! ## Status-classification helpers -/

theorem evaluate_ticket_status_eq (t : Ticket) (cfg : SLAConfig) (cf : String)
    (fetch : String → Option LinkedDetail) (now : NaiveDateTime)
    (hkey : ∀ s, pyStartsWith s cfg.target_project = true → (s == "") = false) :
    (evaluate_ticket t cfg cf fetch now).status
      = specStatusOf (evaluate_ticket t cfg cf fetch now).resolved_date.isSome
          (evaluate_ticket t cfg cf fetch now).days_elapsed cfg.target_days := by
  unfold evaluate_ticket specStatusOf
  cases hsel : (sortDescByCreated (collectCandidates cfg cf fetch t.issuelinks)).head? with
  | none => simp [hsel, optStrTruthy]
  | some c =>
    cases hcr : c.created with
    | none => simp [hsel, hcr, optStrTruthy]
    | some r =>
      have hmem : c ∈ collectCandidates cfg cf fetch t.issuelinks :=
        firstMax_mem ((sortDesc_head _) ▸ hsel)
      have hpre := collectCandidates_key_prefix cfg cf fetch t.issuelinks c hmem
      have hne := hkey c.key hpre
      simp [hsel, hcr, optStrTruthy, hne]

theorem evaluate_ticket_resolution_status_eq (t : Ticket) (cfg : SLAConfig) (cf : String)
    (fetch : String → Option LinkedDetail) (now : NaiveDateTime)
    (hkey : ∀ s, pyStartsWith s cfg.target_project = true → (s == "") = false) :
    (evaluate_ticket_resolution t cfg cf fetch now).status
      = specStatusOf (evaluate_ticket_resolution t cfg cf fetch now).resolved_date.isSome
          (evaluate_ticket_resolution t cfg cf fetch now).days_elapsed cfg.target_days := by
  unfold evaluate_ticket_resolution specStatusOf
  cases hsel : (sortDescByCreated (collectResolutionCandidates cfg cf fetch t.issuelinks)).head?
    with
  | none => simp [hsel, optStrTruthy]
  | some c =>
    cases hcr : c.created with
    | none => simp [hsel, hcr, optStrTruthy]
    | some r =>
      have hmem : c ∈ collectResolutionCandidates cfg cf fetch t.issuelinks :=
        firstMax_mem ((sortDesc_head _) ▸ hsel)
      have hpre := (collectResolutionCandidates_facts cfg cf fetch t.issuelinks c hmem).1
      have hne := hkey c.key hpre
      simp [hsel, hcr, optStrTruthy, hne]

theorem evaluate_first_response_status_eq (t : Ticket)
    (gc : String → Option (List Comment)) (now : NaiveDateTime) (td : Int) :
    (evaluate_first_response t gc now td).status
      = specStatusOf (evaluate_first_response t gc now td).resolved_date.isSome
          (evaluate_first_response t gc now td).days_elapsed td := by
  unfold evaluate_first_response specStatusOf
  cases hfr : firstResponseDate ((gc t.key).getD []) <;> simp [hfr]

/-! ## Summary-loop lemmas -/

theorem runIdentificationLoop_eq (cf : String) (fetch : String → Option LinkedDetail)
    (now : NaiveDateTime) (tickets : List Ticket) :
    runIdentificationLoop cf fetch now tickets
      = (tickets.filter (fun t =>
            !(!(optStrTruthy (evaluate_ticket t identification_resolution_config cf
                  fetch now).target_ticket)
              && excluded_statuses.contains (pyLower t.statusName)))).map
          (fun t => evaluate_ticket t identification_resolution_config cf fetch now) := by
  induction tickets with
  | nil => rfl
  | cons t ts ih =>
    simp only [runIdentificationLoop, List.filter_cons]
    by_cases h : (!(optStrTruthy (evaluate_ticket t identification_resolution_config cf
          fetch now).target_ticket)
        && excluded_statuses.contains (pyLower t.statusName)) = true
    · have hnot : (!(!(optStrTruthy (evaluate_ticket t identification_resolution_config cf
            fetch now).target_ticket)
          && excluded_statuses.contains (pyLower t.statusName))) = false := by
        rw [h]; rfl
      rw [if_pos h, hnot]
      simp only [Bool.false_eq_true, if_false]
      exact ih
    · have hcond := h
      rw [Bool.not_eq_true] at hcond
      have hnot : (!(!(optStrTruthy (evaluate_ticket t identification_resolution_config cf
            fetch now).target_ticket)
          && excluded_statuses.contains (pyLower t.statusName))) = true := by
        rw [hcond]; rfl
      rw [if_neg h, hnot, if_pos rfl, List.map_cons, ih]

theorem runResolutionLoop_eq (cf : String) (fetch : String → Option LinkedDetail)
    (now : NaiveDateTime) (tickets : List Ticket) :
    runResolutionLoop cf fetch now tickets
      = (tickets.filter (fun t =>
            !(!(optStrTruthy (evaluate_ticket_resolution t resolution_config cf
                  fetch now).target_ticket)
              && excluded_statuses.contains (pyLower t.statusName)))).map
          (fun t => evaluate_ticket_resolution t resolution_config cf fetch now) := by
  induction tickets with
  | nil => rfl
  | cons t ts ih =>
    simp only [runResolutionLoop, List.filter_cons]
    by_cases h : (!(optStrTruthy (evaluate_ticket_resolution t resolution_config cf
          fetch now).target_ticket)
        && excluded_statuses.contains (pyLower t.statusName)) = true
    · have hnot : (!(!(optStrTruthy (evaluate_ticket_resolution t resolution_config cf
            fetch now).target_ticket)
          && excluded_statuses.contains (pyLower t.statusName))) = false := by
        rw [h]; rfl
      rw [if_pos h, hnot]
      simp only [Bool.false_eq_true, if_false]
      exact ih
    · have hcond := h
      rw [Bool.not_eq_true] at hcond
      have hnot : (!(!(optStrTruthy (evaluate_ticket_resolution t resolution_config cf
            fetch now).target_ticket)
          && excluded_statuses.contains (pyLower t.statusName))) = true := by
        rw [hcond]; rfl
      rw [if_neg h, hnot, if_pos rfl, List.map_cons, ih]

/-! ## First-response fold lemmas -/

theorem frStep_eq (acc : Option NaiveDateTime) (c : Comment) :
    frStep acc c
      = match (if specPublicInternal c then parse_jira_date c.created else none) with
        | some d => specMinStep acc d
        | none => acc := by
  by_cases ha : (c.accountType == "atlassian") = true
  · cases hj : c.jsdPublic with
    | some b =>
      cases b <;> cases hp : parse_jira_date c.created <;> cases acc <;>
        simp [frStep, frConsider, specPublicInternal, specMinStep, ha, hj, hp]
    | none =>
      cases hv : c.visibility <;> cases hp : parse_jira_date c.created <;> cases acc <;>
        simp [frStep, frConsider, specPublicInternal, specMinStep, ha, hj, hv, hp]
  · rw [Bool.not_eq_true] at ha
    simp [frStep, specPublicInternal, ha]

theorem firstResponseDate_eq_spec (comments : List Comment) :
    firstResponseDate comments
      = specEarliest (comments.filterMap
          (fun c => if specPublicInternal c then parse_jira_date c.created else none)) := by
  unfold firstResponseDate specEarliest
  suffices h : ∀ acc, comments.foldl frStep acc
      = (comments.filterMap
          (fun c => if specPublicInternal c then parse_jira_date c.created else none)).foldl
        specMinStep acc from h none
  intro acc
  induction comments generalizing acc with
  | nil => rfl
  | cons c cs ih =>
    simp only [List.foldl_cons, List.filterMap_cons]
    rw [frStep_eq acc c]
    cases hq : (if specPublicInternal c then parse_jira_date c.created else none) with
    | none => simp only [hq]; exact ih acc
    | some d => simp only [hq, List.foldl_cons]; exact ih (specMinStep acc d)

/-! ## Counting lemmas -/

theorem countP_replicate_false {α : Type} (p : α → Bool) (a : α) (h : p a = false)
    (n : Nat) : (List.replicate n a).countP p = 0 := by
  induction n with
  | zero => rfl
  | succ n ih => simp [List.replicate_succ, List.countP_cons, h, ih]

/-! ## Business-day convention lemmas -/

theorem busday_count_self (d : Int) : busday_count d d = 0 := by
  simp [busday_count]

theorem dtLtB_eq_true_iff (a b : NaiveDateTime) :
    dtLtB a b = true ↔
      (a.year < b.year ∨ (a.year = b.year ∧ (a.month < b.month ∨ (a.month = b.month ∧
        (a.day < b.day ∨ (a.day = b.day ∧ (a.hour < b.hour ∨ (a.hour = b.hour ∧
          (a.minute < b.minute ∨ (a.minute = b.minute ∧ (a.second < b.second ∨
            (a.second = b.second ∧ a.micro < b.micro)))))))))))) := by
  simp [dtLtB, Nat.blt_eq]

theorem get_business_days_truncate (s e : NaiveDateTime) :
    get_business_days s e = get_business_days (truncateDT s) (truncateDT e) := by
  unfold get_business_days
  have hts : toDays (truncateDT s) = toDays s := rfl
  have hte : toDays (truncateDT e) = toDays e := rfl
  rw [hts, hte]
  cases h1 : dtLtB e s <;> cases h2 : dtLtB (truncateDT e) (truncateDT s)
  · rfl
  · -- ¬(e < s) but the truncated dates compare strictly: impossible
    exfalso
    have h2p := (dtLtB_eq_true_iff (truncateDT e) (truncateDT s)).mp h2
    have h1p : ¬ (dtLtB e s = true) := by simp [h1]
    rw [dtLtB_eq_true_iff] at h1p
    simp only [truncateDT] at h2p
    omega
  · -- e < s but the truncated dates do not: the calendar dates coincide
    have h1p := (dtLtB_eq_true_iff e s).mp h1
    have h2p : ¬ (dtLtB (truncateDT e) (truncateDT s) = true) := by simp [h2]
    rw [dtLtB_eq_true_iff] at h2p
    simp only [truncateDT] at h2p
    have hy : e.year = s.year := by omega
    have hm : e.month = s.month := by omega
    have hd : e.day = s.day := by omega
    have htd : toDays e = toDays s := by
      unfold toDays
      rw [hy, hm, hd]
    show (0 : Int) = busday_count (toDays s) (toDays e)
    rw [htd, busday_count_self]
  · rfl

theorem get_business_days_eq_incl_excl (s e : NaiveDateTime) :
    get_business_days s e = business_days_incl_excl s e := by
  unfold get_business_days business_days_incl_excl busday_count
  split
  · rfl
  · rw [List.countP_eq_length_filter, List.filter_map, List.length_map]
    rfl

/-! ## Observation-time lemmas -/

theorem evaluate_ticket_now_independent (t : Ticket) (cfg : SLAConfig) (cf : String)
    (fetch : String → Option LinkedDetail) (n1 n2 : NaiveDateTime) (c : NaiveDateTime)
    (hcreated : parse_jira_date t.created = some c)
    (hres : (evaluate_ticket t cfg cf fetch n1).resolved_date.isSome = true) :
    evaluate_ticket t cfg cf fetch n1 = evaluate_ticket t cfg cf fetch n2 := by
  unfold evaluate_ticket at hres ⊢
  cases hsel : (sortDescByCreated (collectCandidates cfg cf fetch t.issuelinks)).head? with
  | none => simp [hsel] at hres
  | some cand =>
    cases hcr : cand.created with
    | none => simp [hsel, hcr] at hres
    | some r => simp [hsel, hcr, hcreated]

theorem evaluate_ticket_resolution_now_independent (t : Ticket) (cfg : SLAConfig)
    (cf : String) (fetch : String → Option LinkedDetail) (n1 n2 : NaiveDateTime)
    (c : NaiveDateTime)
    (hcreated : parse_jira_date t.created = some c)
    (hres : (evaluate_ticket_resolution t cfg cf fetch n1).resolved_date.isSome = true) :
    evaluate_ticket_resolution t cfg cf fetch n1
      = evaluate_ticket_resolution t cfg cf fetch n2 := by
  unfold evaluate_ticket_resolution at hres ⊢
  cases hsel : (sortDescByCreated (collectResolutionCandidates cfg cf fetch t.issuelinks)).head?
    with
  | none => simp [hsel] at hres
  | some cand =>
    cases hcr : cand.created with
    | none => simp [hsel, hcr] at hres
    | some r => simp [hsel, hcr, hcreated]

theorem evaluate_first_response_now_independent (t : Ticket)
    (gc : String → Option (List Comment)) (n1 n2 : NaiveDateTime) (td : Int)
    (c : NaiveDateTime)
    (hcreated : parse_jira_date t.created = some c)
    (hres : (evaluate_first_response t gc n1 td).resolved_date.isSome = true) :
    evaluate_first_response t gc n1 td = evaluate_first_response t gc n2 td := by
  unfold evaluate_first_response at hres ⊢
  cases hfr : firstResponseDate ((gc t.key).getD []) with
  | none => simp [hfr] at hres
  | some d => simp [hfr, hcreated]

/-! ## Concrete inputs used by the claim scenarios -/

def exNoFetch : String → Option LinkedDetail := fun _ => none

def exNow35 : NaiveDateTime := ⟨2024, 2, 19, 0, 0, 0, 0⟩

def exNow10 : NaiveDateTime := ⟨2024, 1, 15, 0, 0, 0, 0⟩

def exNowMar : NaiveDateTime := ⟨2024, 3, 1, 0, 0, 0, 0⟩

def exNowJan20 : NaiveDateTime := ⟨2024, 1, 20, 0, 0, 0, 0⟩

def exTicketOpen : Ticket :=
  { key := "ACS-2", created := some (.s "2024-01-01"), statusName := "Open",
    issuelinks := [], fields := [] }

def exTicketClosed : Ticket :=
  { key := "ACS-3", created := some (.s "2024-01-01"), statusName := "Closed",
    issuelinks := [], fields := [] }

def exFetchTwoMatches : String → Option LinkedDetail := fun k =>
  if k == "LPM-1" then
    some ⟨[("created", .s "2024-01-10T00:00:00.000+0000"),
           ("customfield_10356", .obj [("value", "Break Fix")])]⟩
  else if k == "LPM-2" then
    some ⟨[("created", .s "2024-01-15T00:00:00.000+0000"),
           ("customfield_10356", .obj [("value", "break fix")])]⟩
  else none

def exTicketTwoLinks : Ticket :=
  { key := "ACS-1", created := some (.s "2024-01-01"), statusName := "Open",
    issuelinks := [⟨some "LPM-1", none⟩, ⟨none, some "LPM-2"⟩], fields := [] }

def exFetchTie : String → Option LinkedDetail := fun k =>
  if k == "LPM-1" || k == "LPM-2" then
    some ⟨[("created", .s "2024-01-10"),
           ("customfield_10356", .obj [("value", "break fix")])]⟩
  else none

def exTicketTie : Ticket :=
  { key := "ACS-5", created := some (.s "2024-01-01"), statusName := "Open",
    issuelinks := [⟨some "LPM-1", none⟩, ⟨some "LPM-2", none⟩], fields := [] }

def exComments : List Comment :=
  [{ accountType := "atlassian", jsdPublic := some true, visibility := false,
     created := some (.s "2024-01-02T09:00:00.000+0000") }]

def exGetComments : String → Option (List Comment) := fun _ => some exComments

def exFetchNoDoneField : String → Option LinkedDetail := fun k =>
  if k == "LPM-9" then
    some ⟨[("created", .s "2024-01-10"), ("duedate", .s "2024-01-12")]⟩
  else none

def exTicketOneLink : Ticket :=
  { key := "ACS-4", created := some (.s "2024-01-01"), statusName := "Open",
    issuelinks := [⟨some "LPM-9", none⟩], fields := [] }

def exSat : NaiveDateTime := ⟨2024, 1, 6, 0, 0, 0, 0⟩

def exMonAfter : NaiveDateTime := ⟨2024, 1, 8, 0, 0, 0, 0⟩

def exResultWithStatus (st : String) : SLAResult :=
  { source_ticket := "ACS-0", target_ticket := none,
    created_date := ⟨2024, 1, 1, 0, 0, 0, 0⟩, resolved_date := none, days_elapsed := 0,
    target_days := 30, status := st, source_of_identification := "",
    category_migrated := "", lpm_category := "", elapsed_time_str := none }

def exSummary312 : SLASummary :=
  { sla_name := "s", target_days := 30,
    results := [exResultWithStatus "met", exResultWithStatus "met", exResultWithStatus "met",
      exResultWithStatus "breached", exResultWithStatus "in_progress",
      exResultWithStatus "in_progress"] }

def exSummaryOneOne : SLASummary :=
  { sla_name := "s", target_days := 30,
    results := [exResultWithStatus "met", exResultWithStatus "breached"] }

/-! ## Classification case analysis -/

theorem specStatusOf_cases (b : Bool) (e t : Int) :
    (specStatusOf b e t = "met" → b = true ∧ e ≤ t) ∧
    (specStatusOf b e t = "breached" → t < e) ∧
    (specStatusOf b e t = "in_progress" → b = false ∧ e ≤ t) := by
  unfold specStatusOf
  cases b
  · rw [if_neg (by decide : ¬ (false = true))]
    by_cases hlt : t < e
    · rw [if_pos hlt]
      exact ⟨fun h => absurd h (by decide), fun _ => hlt, fun h => absurd h (by decide)⟩
    · rw [if_neg hlt]
      exact ⟨fun h => absurd h (by decide), fun h => absurd h (by decide),
        fun _ => ⟨rfl, by omega⟩⟩
  · rw [if_pos rfl]
    by_cases hle : e ≤ t
    · rw [if_pos hle]
      exact ⟨fun _ => ⟨rfl, hle⟩, fun h => absurd h (by decide), fun h => absurd h (by decide)⟩
    · rw [if_neg hle]
      exact ⟨fun h => absurd h (by decide), fun _ => by omega, fun h => absurd h (by decide)⟩

theorem breached_disj (b : Bool) (P : Prop) (h : P) :
    (b = true ∧ P) ∨ (b = false ∧ P) := by
  cases b
  · exact Or.inr ⟨rfl, h⟩
  · exact Or.inl ⟨rfl, h⟩

/-! ## Claim theorems -/

/-- C1: Status classification is uniform for every ticket evaluation in
every predicate variant: with a `resolved_date` present, status is
`"met"` iff `days_elapsed ≤ target_days` and `"breached"` otherwise;
without one, status is `"breached"` iff `days_elapsed > target_days` and
`"in_progress"` otherwise.  In particular, with `target_days = 30` an
unresolved ticket 35 business days old is `"breached"` and one 10
business days old is `"in_progress"`. -/
theorem claim_C1_status_classification :
    (∀ (t : Ticket) (cf : String) (fetch : String → Option LinkedDetail)
        (now : NaiveDateTime),
       (evaluate_ticket t identification_resolution_config cf fetch now).status
         = specStatusOf
             (evaluate_ticket t identification_resolution_config cf fetch
               now).resolved_date.isSome
             (evaluate_ticket t identification_resolution_config cf fetch now).days_elapsed
             30) ∧
    (∀ (t : Ticket) (cf : String) (fetch : String → Option LinkedDetail)
        (now : NaiveDateTime),
       (evaluate_ticket_resolution t resolution_config cf fetch now).status
         = specStatusOf
             (evaluate_ticket_resolution t resolution_config cf fetch
               now).resolved_date.isSome
             (evaluate_ticket_resolution t resolution_config cf fetch now).days_elapsed
             60) ∧
    (∀ (t : Ticket) (gc : String → Option (List Comment)) (now : NaiveDateTime) (td : Int),
       (evaluate_first_response t gc now td).status
         = specStatusOf (evaluate_first_response t gc now td).resolved_date.isSome
             (evaluate_first_response t gc now td).days_elapsed td) ∧
    ((evaluate_ticket exTicketOpen identification_resolution_config CATEGORY_FIELD_ID
        exNoFetch exNow35).days_elapsed = 35 ∧
     (evaluate_ticket exTicketOpen identification_resolution_config CATEGORY_FIELD_ID
        exNoFetch exNow35).status = "breached") ∧
    ((evaluate_ticket exTicketOpen identification_resolution_config CATEGORY_FIELD_ID
        exNoFetch exNow10).days_elapsed = 10 ∧
     (evaluate_ticket exTicketOpen identification_resolution_config CATEGORY_FIELD_ID
        exNoFetch exNow10).status = "in_progress") := by
  refine ⟨?_, ?_, ?_, ⟨by decide, by decide⟩, ⟨by decide, by decide⟩⟩
  · intro t cf fetch now
    exact evaluate_ticket_status_eq t identification_resolution_config cf fetch now
      (fun s h => startsWith_LPM_ne_empty s h)
  · intro t cf fetch now
    exact evaluate_ticket_resolution_status_eq t resolution_config cf fetch now
      (fun s h => startsWith_LPM_ne_empty s h)
  · intro t gc now td
    exact evaluate_first_response_status_eq t gc now td

/-- C2 counterexample: at start 2024-01-06 (a Saturday) and end
2024-01-08 (the following Monday), `get_business_days` returns `0`
(the numpy `[start, end)` convention counts Saturday and Sunday, no
business day), while the claimed start-excluded/end-included convention
counts Sunday and Monday, i.e. `1` business day.  The two conventions
therefore disagree and the claim as stated is false. -/
theorem claim_C2_counterexample :
    get_business_days exSat exMonAfter = 0 ∧
    business_days_excl_incl exSat exMonAfter = 1 :=
  ⟨by decide, by decide⟩

/-- C2 (amended): `business_days_between(start, end)` counts the business
days (Mon–Fri) between the two calendar dates ignoring time-of-day under
the half-open convention in which the **start date is included and the
end date is excluded** (the numpy `busday_count` convention); for every
pair with `end < start` it returns `0`, and the result is never
negative. -/
theorem claim_C2_business_days :
    (∀ s e : NaiveDateTime, dtLtB e s = true → get_business_days s e = 0) ∧
    (∀ s e : NaiveDateTime, 0 ≤ get_business_days s e) ∧
    (∀ s e : NaiveDateTime,
       get_business_days s e = get_business_days (truncateDT s) (truncateDT e)) ∧
    (∀ s e : NaiveDateTime, get_business_days s e = business_days_incl_excl s e) := by
  refine ⟨?_, ?_, get_business_days_truncate, get_business_days_eq_incl_excl⟩
  · intro s e h
    unfold get_business_days
    rw [h, if_pos rfl]
  · intro s e
    unfold get_business_days
    split
    · exact le_refl 0
    · exact Int.natCast_nonneg _

/-- Witness for C2: concrete instance with `end < start` giving `0`. -/
theorem claim_C2_business_days_witness :
    get_business_days exMonAfter exSat = 0 :=
  claim_C2_business_days.1 exMonAfter exSat (by decide)

/-- C4: among several matching linked tickets, the engine selects the
candidate with the latest `created` timestamp, ties broken
deterministically by stable input order (the selection equals
`firstMaxByCreated`, the first candidate attaining the maximal
timestamp); for a source ticket with two `break fix` candidates created
2024-01-10 and 2024-01-15, the 2024-01-15 one becomes
`target_ticket`/`resolved_date`, and for two candidates with equal
timestamps the first-listed one wins. -/
theorem claim_C4_latest_candidate_selected :
    (∀ (t : Ticket) (cfg : SLAConfig) (cf : String)
        (fetch : String → Option LinkedDetail) (now : NaiveDateTime),
       (evaluate_ticket t cfg cf fetch now).target_ticket
           = (firstMaxByCreated (collectCandidates cfg cf fetch t.issuelinks)).map
               Candidate.key ∧
       (evaluate_ticket t cfg cf fetch now).resolved_date
           = (firstMaxByCreated (collectCandidates cfg cf fetch t.issuelinks)).bind
               Candidate.created) ∧
    ((evaluate_ticket exTicketTwoLinks identification_resolution_config CATEGORY_FIELD_ID
        exFetchTwoMatches exNowMar).target_ticket = some "LPM-2" ∧
     (evaluate_ticket exTicketTwoLinks identification_resolution_config CATEGORY_FIELD_ID
        exFetchTwoMatches exNowMar).resolved_date = some ⟨2024, 1, 15, 0, 0, 0, 0⟩) ∧
    (evaluate_ticket exTicketTie identification_resolution_config CATEGORY_FIELD_ID
        exFetchTie exNowMar).target_ticket = some "LPM-1" := by
  refine ⟨?_, ⟨by decide, by decide⟩, by decide⟩
  intro t cfg cf fetch now
  simp only [evaluate_ticket]
  rw [sortDesc_head]
  exact ⟨rfl, rfl⟩

/-- C8: in the first-response variant the resolution event is the
earliest parsed date among comments authored by an `atlassian` account
that are public (`jsdPublic` true, or no visibility restriction when the
flag is absent) — comments failing either check contribute nothing — and
the elapsed value compared against the threshold is business days
between the created date and the resolution (or now). -/
theorem claim_C8_first_response :
    (∀ comments : List Comment,
       firstResponseDate comments
         = specEarliest (comments.filterMap
             (fun c => if specPublicInternal c then parse_jira_date c.created else none))) ∧
    (∀ (t : Ticket) (gc : String → Option (List Comment)) (now : NaiveDateTime) (td : Int),
       (evaluate_first_response t gc now td).resolved_date
           = firstResponseDate ((gc t.key).getD []) ∧
       (evaluate_first_response t gc now td).days_elapsed
           = get_business_days ((parse_jira_date t.created).getD now)
               (((evaluate_first_response t gc now td).resolved_date).getD now)) := by
  refine ⟨firstResponseDate_eq_spec, ?_⟩
  intro t gc now td
  unfold evaluate_first_response
  cases hfr : firstResponseDate ((gc t.key).getD []) <;>
    simp [hfr, get_business_days_elapsed]

/-- C9: `parse_jira_date` is total by construction (it returns an
`Option` and never fails): `None`, the empty string, a malformed string
such as `"13/40/2024"` and every non-string input yield `none`; the six
formats are tried in a fixed priority order and the first success wins
(whenever the first format parses, its result is the answer); and a
timezone-aware parse keeps the literal clock reading, dropping the
offset rather than normalizing to UTC. -/
theorem claim_C9_parse_date :
    parse_jira_date none = none ∧
    parse_jira_date (some (.s "")) = none ∧
    parse_jira_date (some (.s "13/40/2024")) = none ∧
    parse_jira_date (some .null) = none ∧
    (∀ es, parse_jira_date (some (.obj es)) = none) ∧
    (∀ xs, parse_jira_date (some (.list xs)) = none) ∧
    (∀ (v : String) (r : NaiveDateTime × Option Int),
       strptimeFmt1 v.data = some r → parse_jira_date (some (.s v)) = some r.1) ∧
    parse_jira_date (some (.s "2024-01-02T03:04:05+0500"))
      = some ⟨2024, 1, 2, 3, 4, 5, 0⟩ := by
  refine ⟨rfl, rfl, by decide, rfl, fun es => rfl, fun xs => rfl, ?_, by decide⟩
  intro v r h
  have hv : (v == "") = false := by
    cases hveq : v == ""
    · rfl
    · exfalso
      have hve : v = "" := by simpa using hveq
      subst hve
      rw [show strptimeFmt1 "".data = none from rfl] at h
      exact Option.noConfusion h
  show (if (v == "") = true then none else Option.map (fun p => p.1) (tryFormats v))
      = some r.1
  rw [hv, if_neg (by decide : ¬ (false = true))]
  unfold tryFormats
  rw [h]
  rfl

/-- Witness for C9: the first format parses
`"2024-01-02T03:04:05.123+0100"` and its (offset-dropped) result is
returned. -/
theorem claim_C9_parse_date_witness :
    parse_jira_date (some (.s "2024-01-02T03:04:05.123+0100"))
      = some ⟨2024, 1, 2, 3, 4, 5, 123000⟩ :=
  claim_C9_parse_date.2.2.2.2.2.2.1 "2024-01-02T03:04:05.123+0100"
    (⟨2024, 1, 2, 3, 4, 5, 123000⟩, some 60) (by decide)

/-- C3 counterexample: the first-response check produces a Result with
`status = "met"` whose `target_ticket` is absent (`check_first_response`
always sets `target_ticket := None`), so "met implies the target_ticket
field is present" is false as stated. -/
theorem claim_C3_counterexample :
    (evaluate_first_response exTicketOpen exGetComments exNowJan20 2).status = "met" ∧
    (evaluate_first_response exTicketOpen exGetComments exNowJan20 2).target_ticket = none :=
  ⟨by decide, by decide⟩

/-- C3 (amended): for every Result of any of the three checks, with
"resolved" read as `resolved_date` being present (in the first-response
variant the resolution is a comment, not a target ticket):
`status = "met"` implies `resolved_date` present and
`days_elapsed ≤ target_days`; `status = "breached"` implies either a
resolved evaluation over threshold or an unresolved one already over
threshold; `status = "in_progress"` implies unresolved and not over
threshold. -/
theorem claim_C3_result_invariants :
    (∀ (t : Ticket) (cf : String) (fetch : String → Option LinkedDetail)
        (now : NaiveDateTime),
       ((evaluate_ticket t identification_resolution_config cf fetch now).status = "met" →
          (evaluate_ticket t identification_resolution_config cf fetch
            now).resolved_date.isSome = true ∧
          (evaluate_ticket t identification_resolution_config cf fetch now).days_elapsed
            ≤ 30) ∧
       ((evaluate_ticket t identification_resolution_config cf fetch now).status
            = "breached" →
          ((evaluate_ticket t identification_resolution_config cf fetch
              now).resolved_date.isSome = true ∧
            30 < (evaluate_ticket t identification_resolution_config cf fetch
              now).days_elapsed) ∨
          ((evaluate_ticket t identification_resolution_config cf fetch
              now).resolved_date.isSome = false ∧
            30 < (evaluate_ticket t identification_resolution_config cf fetch
              now).days_elapsed)) ∧
       ((evaluate_ticket t identification_resolution_config cf fetch now).status
            = "in_progress" →
          (evaluate_ticket t identification_resolution_config cf fetch
            now).resolved_date.isSome = false ∧
          (evaluate_ticket t identification_resolution_config cf fetch now).days_elapsed
            ≤ 30)) ∧
    (∀ (t : Ticket) (cf : String) (fetch : String → Option LinkedDetail)
        (now : NaiveDateTime),
       ((evaluate_ticket_resolution t resolution_config cf fetch now).status = "met" →
          (evaluate_ticket_resolution t resolution_config cf fetch
            now).resolved_date.isSome = true ∧
          (evaluate_ticket_resolution t resolution_config cf fetch now).days_elapsed
            ≤ 60) ∧
       ((evaluate_ticket_resolution t resolution_config cf fetch now).status = "breached" →
          ((evaluate_ticket_resolution t resolution_config cf fetch
              now).resolved_date.isSome = true ∧
            60 < (evaluate_ticket_resolution t resolution_config cf fetch
              now).days_elapsed) ∨
          ((evaluate_ticket_resolution t resolution_config cf fetch
              now).resolved_date.isSome = false ∧
            60 < (evaluate_ticket_resolution t resolution_config cf fetch
              now).days_elapsed)) ∧
       ((evaluate_ticket_resolution t resolution_config cf fetch now).status
            = "in_progress" →
          (evaluate_ticket_resolution t resolution_config cf fetch
            now).resolved_date.isSome = false ∧
          (evaluate_ticket_resolution t resolution_config cf fetch now).days_elapsed
            ≤ 60)) ∧
    (∀ (t : Ticket) (gc : String → Option (List Comment)) (now : NaiveDateTime) (td : Int),
       ((evaluate_first_response t gc now td).status = "met" →
          (evaluate_first_response t gc now td).resolved_date.isSome = true ∧
          (evaluate_first_response t gc now td).days_elapsed ≤ td) ∧
       ((evaluate_first_response t gc now td).status = "breached" →
          ((evaluate_first_response t gc now td).resolved_date.isSome = true ∧
            td < (evaluate_first_response t gc now td).days_elapsed) ∨
          ((evaluate_first_response t gc now td).resolved_date.isSome = false ∧
            td < (evaluate_first_response t gc now td).days_elapsed)) ∧
       ((evaluate_first_response t gc now td).status = "in_progress" →
          (evaluate_first_response t gc now td).resolved_date.isSome = false ∧
          (evaluate_first_response t gc now td).days_elapsed ≤ td)) := by
  refine ⟨?_, ?_, ?_⟩
  · intro t cf fetch now
    have hs := evaluate_ticket_status_eq t identification_resolution_config cf fetch now
      (fun s h => startsWith_LPM_ne_empty s h)
    refine ⟨fun h => ?_, fun h => ?_, fun h => ?_⟩
    · exact (specStatusOf_cases _ _ _).1 (hs ▸ h)
    · exact breached_disj _ _ ((specStatusOf_cases _ _ _).2.1 (hs ▸ h))
    · exact (specStatusOf_cases _ _ _).2.2 (hs ▸ h)
  · intro t cf fetch now
    have hs := evaluate_ticket_resolution_status_eq t resolution_config cf fetch now
      (fun s h => startsWith_LPM_ne_empty s h)
    refine ⟨fun h => ?_, fun h => ?_, fun h => ?_⟩
    · exact (specStatusOf_cases _ _ _).1 (hs ▸ h)
    · exact breached_disj _ _ ((specStatusOf_cases _ _ _).2.1 (hs ▸ h))
    · exact (specStatusOf_cases _ _ _).2.2 (hs ▸ h)
  · intro t gc now td
    have hs := evaluate_first_response_status_eq t gc now td
    refine ⟨fun h => ?_, fun h => ?_, fun h => ?_⟩
    · exact (specStatusOf_cases _ _ _).1 (hs ▸ h)
    · exact breached_disj _ _ ((specStatusOf_cases _ _ _).2.1 (hs ▸ h))
    · exact (specStatusOf_cases _ _ _).2.2 (hs ▸ h)

/-- Witness for C3: the met-implication instantiated at a first-response
evaluation that meets its threshold. -/
theorem claim_C3_result_invariants_witness :
    (evaluate_first_response exTicketOpen exGetComments exNowJan20 2).resolved_date.isSome
      = true ∧
    (evaluate_first_response exTicketOpen exGetComments exNowJan20 2).days_elapsed ≤ 2 :=
  (claim_C3_result_invariants.2.2 exTicketOpen exGetComments exNowJan20 2).1 (by decide)

/-- C5: the shipped `resolution_config` has no `config_done_date_field`
key, so `_evaluate_ticket_resolution` reads the done-date from the field
named `""`; whenever no linked ticket's field mapping has an
empty-string key, the candidate list stays empty, `target_ticket` and
`resolved_date` stay unset, and no Result of `check_resolution_config`
has status `"met"`. -/
theorem claim_C5_resolution_never_met :
    resolution_config.config_done_date_field = none ∧
    ∀ (cf : String) (fetch : String → Option LinkedDetail),
      (∀ k d, fetch k = some d → d.fields.lookup "" = none) →
      (∀ links, collectResolutionCandidates resolution_config cf fetch links = []) ∧
      (∀ (tickets : List Ticket) (now : NaiveDateTime),
        ∀ r ∈ (check_resolution_config tickets cf fetch now).results,
          r.target_ticket = none ∧ r.resolved_date = none ∧ r.status ≠ "met") := by
  refine ⟨rfl, ?_⟩
  intro cf fetch hfetch
  have hempty : ∀ links, collectResolutionCandidates resolution_config cf fetch links = [] := by
    intro links
    induction links with
    | nil => rfl
    | cons link rest ih =>
      cases hlk : linkedKey link with
      | none => simp only [collectResolutionCandidates, hlk]; exact ih
      | some lk =>
        simp only [collectResolutionCandidates, hlk]
        by_cases hsw : pyStartsWith lk resolution_config.target_project = true
        · simp only [hsw, Bool.not_true, Bool.false_eq_true, if_false]
          cases hf : fetch lk with
          | none => simp only [hf]; exact ih
          | some detail =>
            simp only [hf]
            have hl : detail.fields.lookup "" = none := hfetch lk detail hf
            have hp : parse_jira_date
                (detail.fields.lookup (resolution_config.config_done_date_field.getD ""))
                = none := by
              rw [show resolution_config.config_done_date_field.getD "" = "" from rfl, hl]
              rfl
            simp only [hp]
            exact ih
        · rw [Bool.not_eq_true] at hsw
          simp only [hsw, Bool.not_false, if_true]
          exact ih
  refine ⟨hempty, ?_⟩
  intro tickets now r hr
  have hrw : (check_resolution_config tickets cf fetch now).results
      = runResolutionLoop cf fetch now tickets := rfl
  rw [hrw, runResolutionLoop_eq] at hr
  rcases List.mem_map.mp hr with ⟨t, _, rfl⟩
  have hc := hempty t.issuelinks
  have htarget : (evaluate_ticket_resolution t resolution_config cf fetch
      now).target_ticket = none := by
    unfold evaluate_ticket_resolution
    rw [hc]
    rfl
  have hresolved : (evaluate_ticket_resolution t resolution_config cf fetch
      now).resolved_date = none := by
    unfold evaluate_ticket_resolution
    rw [hc]
    rfl
  refine ⟨htarget, hresolved, fun hmet => ?_⟩
  have hstatus := evaluate_ticket_resolution_status_eq t resolution_config cf fetch now
    (fun s h => startsWith_LPM_ne_empty s h)
  have h1 := (specStatusOf_cases _ _ _).1 (hstatus ▸ hmet)
  rw [hresolved] at h1
  exact absurd h1.1 (by decide)

/-- Witness for C5: a linked ticket with `created` and `duedate` fields
but no empty-string key yields an unresolved, non-met Result. -/
theorem claim_C5_resolution_never_met_witness :
    (evaluate_ticket_resolution exTicketOneLink resolution_config CATEGORY_FIELD_ID
        exFetchNoDoneField exNowJan20).target_ticket = none ∧
    (evaluate_ticket_resolution exTicketOneLink resolution_config CATEGORY_FIELD_ID
        exFetchNoDoneField exNowJan20).resolved_date = none ∧
    (evaluate_ticket_resolution exTicketOneLink resolution_config CATEGORY_FIELD_ID
        exFetchNoDoneField exNowJan20).status ≠ "met" := by
  have hfetch : ∀ k d, exFetchNoDoneField k = some d → d.fields.lookup "" = none := by
    intro k d h
    unfold exFetchNoDoneField at h
    by_cases hk : (k == "LPM-9") = true
    · rw [if_pos hk] at h
      cases h
      rfl
    · rw [if_neg hk] at h
      exact Option.noConfusion h
  exact (claim_C5_resolution_never_met.2 CATEGORY_FIELD_ID exFetchNoDoneField hfetch).2
    [exTicketOneLink] exNowJan20
    (evaluate_ticket_resolution exTicketOneLink resolution_config CATEGORY_FIELD_ID
      exFetchNoDoneField exNowJan20)
    (by decide)

/-- C6: `compliance_rate` equals `met / (met + breached) * 100`, and
equals exactly `100.0` when `met + breached = 0`; 3 met / 1 breached /
2 in-progress gives `75.0`, and 0 met / 0 breached / N in-progress gives
`100.0`. -/
theorem claim_C6_compliance_rate :
    (∀ s : SLASummary, s.met_count + s.breached_count = 0 → s.compliance_rate = 100) ∧
    (∀ s : SLASummary, s.met_count + s.breached_count ≠ 0 →
        s.compliance_rate
          = ((s.met_count : ℚ) / ((s.met_count : ℚ) + (s.breached_count : ℚ))) * 100) ∧
    exSummary312.compliance_rate = 75 ∧
    (∀ n : Nat,
       (SLASummary.mk "s" 30
         (List.replicate n (exResultWithStatus "in_progress"))).compliance_rate = 100) := by
  refine ⟨?_, ?_, ?_, ?_⟩
  · intro s h
    unfold SLASummary.compliance_rate
    rw [h]
    rfl
  · intro s h
    have hb : (s.met_count + s.breached_count == 0) = false := by
      simpa using h
    simp only [SLASummary.compliance_rate, hb, Bool.false_eq_true, if_false]
    push_cast
    rfl
  · have h1 : exSummary312.met_count = 3 := by decide
    have h2 : exSummary312.breached_count = 1 := by decide
    unfold SLASummary.compliance_rate
    rw [h1, h2]
    norm_num
  · intro n
    have h1 : (SLASummary.mk "s" 30
        (List.replicate n (exResultWithStatus "in_progress"))).met_count = 0 :=
      countP_replicate_false SLAResult.is_met (exResultWithStatus "in_progress") (by decide) n
    have h2 : (SLASummary.mk "s" 30
        (List.replicate n (exResultWithStatus "in_progress"))).breached_count = 0 :=
      countP_replicate_false SLAResult.is_breached (exResultWithStatus "in_progress")
        (by decide) n
    unfold SLASummary.compliance_rate
    rw [h1, h2]
    rfl

/-- Witness for C6: the ratio formula instantiated at a summary with one
met and one breached Result. -/
theorem claim_C6_compliance_rate_witness :
    exSummaryOneOne.compliance_rate
      = ((exSummaryOneOne.met_count : ℚ)
          / ((exSummaryOneOne.met_count : ℚ) + (exSummaryOneOne.breached_count : ℚ))) * 100 :=
  claim_C6_compliance_rate.2.1 exSummaryOneOne (by decide)

/-- C7: in both link-based checks a Result whose target ticket is falsy
and whose source ticket's own status (case-insensitively) is in
{closed, resolved, canceled} is dropped entirely: the summary's results
are exactly the evaluations of the non-dropped tickets, and in the
concrete scenario a "Closed" source ticket with no qualifying link
appears neither in `results` nor in `total_count`. -/
theorem claim_C7_exclusion_filter :
    (∀ (cf : String) (fetch : String → Option LinkedDetail) (now : NaiveDateTime)
        (tickets : List Ticket),
       (check_identification_resolution_config tickets cf fetch now).results
         = (tickets.filter (fun t =>
              !(!(optStrTruthy (evaluate_ticket t identification_resolution_config cf fetch
                    now).target_ticket)
                && excluded_statuses.contains (pyLower t.statusName)))).map
             (fun t => evaluate_ticket t identification_resolution_config cf fetch now)) ∧
    (∀ (cf : String) (fetch : String → Option LinkedDetail) (now : NaiveDateTime)
        (tickets : List Ticket),
       (check_resolution_config tickets cf fetch now).results
         = (tickets.filter (fun t =>
              !(!(optStrTruthy (evaluate_ticket_resolution t resolution_config cf fetch
                    now).target_ticket)
                && excluded_statuses.contains (pyLower t.statusName)))).map
             (fun t => evaluate_ticket_resolution t resolution_config cf fetch now)) ∧
    ((check_identification_resolution_config [exTicketClosed] CATEGORY_FIELD_ID exNoFetch
        exNow10).results = [] ∧
     (check_identification_resolution_config [exTicketClosed] CATEGORY_FIELD_ID exNoFetch
        exNow10).total_count = 0) ∧
    ((check_resolution_config [exTicketClosed] CATEGORY_FIELD_ID exNoFetch
        exNow10).results = [] ∧
     (check_resolution_config [exTicketClosed] CATEGORY_FIELD_ID exNoFetch
        exNow10).total_count = 0) := by
  refine ⟨?_, ?_, ⟨by decide, by decide⟩, ⟨by decide, by decide⟩⟩
  · intro cf fetch now tickets
    exact runIdentificationLoop_eq cf fetch now tickets
  · intro cf fetch now tickets
    exact runResolutionLoop_eq cf fetch now tickets

/-- C10 counterexample: the same snapshot (one unresolved open ticket,
no links) evaluated at two different observation instants yields two
different Summaries — `in_progress` at 10 business days, `breached` at
35 — so a re-run at a later wall-clock time does not reproduce the
Summary and the claim as stated is false. -/
theorem claim_C10_counterexample :
    check_identification_resolution_config [exTicketOpen] CATEGORY_FIELD_ID exNoFetch exNow10
      ≠ check_identification_resolution_config [exTicketOpen] CATEGORY_FIELD_ID exNoFetch
          exNow35 := by
  decide

/-- C10 (amended): the evaluation is a deterministic function of the
snapshot plus the observation instant — two runs at the same instant
give identical Summaries for all three checks — and for a ticket whose
`created` date parses and whose evaluation is resolved, the entire
Result (status included) is independent of the observation instant; only
unresolved (or unparseable-`created`) tickets can change status between
runs as the clock advances. -/
theorem claim_C10_determinism :
    (∀ (tickets : List Ticket) (cf : String) (fetch : String → Option LinkedDetail)
        (n1 n2 : NaiveDateTime), n1 = n2 →
       check_identification_resolution_config tickets cf fetch n1
         = check_identification_resolution_config tickets cf fetch n2) ∧
    (∀ (tickets : List Ticket) (cf : String) (fetch : String → Option LinkedDetail)
        (n1 n2 : NaiveDateTime), n1 = n2 →
       check_resolution_config tickets cf fetch n1
         = check_resolution_config tickets cf fetch n2) ∧
    (∀ (tickets : List Ticket) (gc : String → Option (List Comment))
        (n1 n2 : NaiveDateTime) (td : Int), n1 = n2 →
       check_first_response tickets gc n1 td = check_first_response tickets gc n2 td) ∧
    (∀ (t : Ticket) (cfg : SLAConfig) (cf : String) (fetch : String → Option LinkedDetail)
        (n1 n2 c : NaiveDateTime), parse_jira_date t.created = some c →
       (evaluate_ticket t cfg cf fetch n1).resolved_date.isSome = true →
       evaluate_ticket t cfg cf fetch n1 = evaluate_ticket t cfg cf fetch n2) ∧
    (∀ (t : Ticket) (cfg : SLAConfig) (cf : String) (fetch : String → Option LinkedDetail)
        (n1 n2 c : NaiveDateTime), parse_jira_date t.created = some c →
       (evaluate_ticket_resolution t cfg cf fetch n1).resolved_date.isSome = true →
       evaluate_ticket_resolution t cfg cf fetch n1
         = evaluate_ticket_resolution t cfg cf fetch n2) ∧
    (∀ (t : Ticket) (gc : String → Option (List Comment)) (n1 n2 : NaiveDateTime)
        (td : Int) (c : NaiveDateTime), parse_jira_date t.created = some c →
       (evaluate_first_response t gc n1 td).resolved_date.isSome = true →
       evaluate_first_response t gc n1 td = evaluate_first_response t gc n2 td) := by
  refine ⟨?_, ?_, ?_, ?_, ?_, ?_⟩
  · intro tickets cf fetch n1 n2 h; rw [h]
  · intro tickets cf fetch n1 n2 h; rw [h]
  · intro tickets gc n1 n2 td h; rw [h]
  · intro t cfg cf fetch n1 n2 c hcreated hres
    exact evaluate_ticket_now_independent t cfg cf fetch n1 n2 c hcreated hres
  · intro t cfg cf fetch n1 n2 c hcreated hres
    exact evaluate_ticket_resolution_now_independent t cfg cf fetch n1 n2 c hcreated hres
  · intro t gc n1 n2 td c hcreated hres
    exact evaluate_first_response_now_independent t gc n1 n2 td c hcreated hres

/-- Witness for C10: a resolved category-predicate evaluation is
identical at two different observation instants. -/
theorem claim_C10_determinism_witness :
    evaluate_ticket exTicketTwoLinks identification_resolution_config CATEGORY_FIELD_ID
        exFetchTwoMatches exNow10
      = evaluate_ticket exTicketTwoLinks identification_resolution_config CATEGORY_FIELD_ID
          exFetchTwoMatches exNowMar :=
  claim_C10_determinism.2.2.2.1 exTicketTwoLinks identification_resolution_config
    CATEGORY_FIELD_ID exFetchTwoMatches exNow10 exNowMar ⟨2024, 1, 1, 0, 0, 0, 0⟩
    (by decide) (by decide)

end SlaApp
